import Mathlib

/-!
# Verification of the ibm-igc-lineage flow-document and run-document handlers

This development gives a shallow embedding of the lineage-handling code of the
`ibm-igc-lineage` repository and proves properties of it:

* the flow-document model and the `FlowHandler` identity resolver
  (`getTableIdentity`, `getColumnIdentity`, `getColumnIdentityFromTableIdentity`,
  `getRepositoryIdFromDSSourceId`, `getRepositoryIdFromDSTargetId`, `addAsset`,
  `addFlow`), from `classes/flow-handler.js`, together with the duplicated
  historical prototype-based variant of the identity resolver;
* the run-document (operational metadata) model and the `OMDHandler` operations
  (`getDataResourceIdentity`, `replaceHostname`, `getUniqueRuntimeIdentity`),
  from `classes/omd-handler.js`;
* the pivot-injection pass of `samples/createColumnLevelPivots.js`
  (`injectSnippetForPivotColumn`, `injectSnippetForPivotFlowAsSource`,
  `injectSnippetForPivotFlowAsTarget`, `resolveSourceToTargetMappings`) with its
  identity cache and id generators.

JavaScript operations are modelled as follows: a lookup that would dereference
`undefined`/`null` (and so throw at run time) is modelled with `Option`, `none`
standing for the thrown error; `String.prototype.replace` with a string pattern
replaces only the first occurrence, modelled by `jsReplace`;
`String.prototype.toLowerCase` is modelled on the ASCII range by `jsToLower`;
`split(" ")` is modelled by `jsSplitSpace`; a JavaScript object used as a map
(`hmObjectIdentitiesToIds`, `idObj.parameters`) is modelled as an association
list where later assignments shadow earlier ones.
-/

/-- JavaScript `s.toLowerCase()` restricted to ASCII, as used on identity
segments by the identity resolver. -/
def jsToLower (s : String) : String :=
  ⟨s.data.map Char.toLower⟩

/-- If `pat` is a prefix of `s`, strip it and return the remainder. -/
def stripLead : List Char → List Char → Option (List Char)
  | [], s => some s
  | _ :: _, [] => none
  | p :: ps, c :: cs => if p = c then stripLead ps cs else none

/-- Replace the first occurrence of `pat` (leftmost match) by `rep`;
if there is no occurrence the list is returned unchanged. -/
def replFirstAux (pat rep : List Char) : List Char → List Char
  | [] =>
    match stripLead pat [] with
    | some rest => rep ++ rest
    | none => []
  | c :: cs =>
    match stripLead pat (c :: cs) with
    | some rest => rep ++ rest
    | none => c :: replFirstAux pat rep cs

/-- JavaScript `s.replace(pat, rep)` with a string pattern: only the first
occurrence of `pat` is replaced. -/
def jsReplace (s pat rep : String) : String :=
  ⟨replFirstAux pat.data rep.data s.data⟩

/-- Split a character list at every occurrence of `c`. -/
def splitOnCharAux (c : Char) : List Char → List (List Char)
  | [] => [[]]
  | x :: xs =>
    let r := splitOnCharAux c xs
    if x = c then [] :: r
    else
      match r with
      | [] => [[x]]
      | h :: t => (x :: h) :: t

/-- JavaScript `s.split(" ")`: split on every single space, keeping empty
segments (`"" .split(" ")` is `[""]`). -/
def jsSplitSpace (s : String) : List String :=
  (splitOnCharAux ' ' s.data).map (fun l => ⟨l⟩)

/-- Drop everything up to and including the first `.`; JavaScript
`s.substring(s.indexOf(".") + 1)` returns the whole string when there is no
dot (`indexOf` is `-1`). -/
def dropThroughDot : List Char → Option (List Char)
  | [] => none
  | c :: cs => if c = '.' then some cs else dropThroughDot cs

/-- JavaScript `s.substring(s.indexOf(".") + 1)`. -/
def jsAfterFirstDot (s : String) : String :=
  match dropThroughDot s.data with
  | some rest => ⟨rest⟩
  | none => s

/-! ## FlowEdge document model (`classes/flow-handler.js`)

A flow document holds an `assets` collection; each `asset` element carries the
attributes `class`, `repr`, `externalID`, `ID`, `matchByName`, `virtualOnly`,
child `attribute` elements and child `reference` elements.  Flows live in
`subFlows` groups (`ENTRY`, `EXIT`, `SYSTEM`); a group is modelled as the list
of its `flow` elements in document order. -/

/-- A child `attribute` element of an asset (`name`/`value`). -/
structure FlowAttr where
  name : String
  value : String
  deriving DecidableEq, Repr

/-- A child `reference` element of an asset (`name`/`assetIDs`). -/
structure FlowRef where
  name : String
  assetIDs : String
  deriving DecidableEq, Repr

/-- An `asset` element of a flow document. `klass` is the `class` attribute,
`repr` the display name. -/
structure Asset where
  klass : String
  repr : String
  externalID : String
  ID : String
  matchByName : String
  virtualOnly : String
  attributes : List FlowAttr
  references : List FlowRef
  deriving DecidableEq, Repr

/-- A `flow` element: `sourceIDs`/`targetIDs` are space-joined id lists. -/
structure FlowEdge where
  sourceIDs : String
  targetIDs : String
  comment : String
  deriving DecidableEq, Repr

/-- A flow document, reduced to its `assets` collection (the part the verified
operations read and extend). -/
structure FlowDoc where
  assets : List Asset
  deriving DecidableEq, Repr

/-- `getAssetName(asset)`: the `repr` attribute. -/
def getAssetName (a : Asset) : String := a.repr

/-- `getAssetRID(asset)`: the `externalID` attribute. -/
def getAssetRID (a : Asset) : String := a.externalID

/-- `getAssetById(id)`: first asset whose `ID` attribute equals `id`; the
xpath lookup yields `undefined` when there is none. -/
def getAssetById (doc : FlowDoc) (id : String) : Option Asset :=
  doc.assets.find? (fun a => a.ID == id)

/-- `getParentAssetId(asset)`: the `assetIDs` attribute of the first
`reference` child; throws (here `none`) when the asset has no reference. -/
def getParentAssetId (a : Asset) : Option String :=
  a.references.head?.map FlowRef.assetIDs

/-- Value of the first `attribute` child with the given `name`; `none` when
the xpath lookup finds no such child (the caller would throw). -/
def getAttrValueByName (a : Asset) (n : String) : Option String :=
  (a.attributes.find? (fun x => x.name == n)).map FlowAttr.value

/-- `getTableIdentity(tblName, schemaId)`: walk schema → database container →
host through parent references, read the container's `creationTool`
attribute, and compose the lower-cased identity string. -/
def getTableIdentity (doc : FlowDoc) (tblName schemaId : String) : Option String := do
  let eSchema ← getAssetById doc schemaId
  let schemaName := getAssetName eSchema
  let dcnId ← getParentAssetId eSchema
  let eDCN ← getAssetById doc dcnId
  let dcnName := getAssetName eDCN
  let creationTool ← getAttrValueByName eDCN "creationTool"
  let hostId ← getParentAssetId eDCN
  let eHost ← getAssetById doc hostId
  let hostName := getAssetName eHost
  return "_ngo:table:" ++
    "_ngo:db:" ++ jsToLower hostName ++
    "::" ++ jsToLower dcnName ++
    "::" ++ jsToLower creationTool ++
    "::" ++ jsToLower schemaName ++
    "::" ++ jsToLower tblName

/-- `getColumnIdentity(colName, tableId)`: look up the table asset, take its
name and parent schema, compute the table identity and compose the column
identity from it. -/
def getColumnIdentity (doc : FlowDoc) (colName tableId : String) : Option String := do
  let eTable ← getAssetById doc tableId
  let tableName := getAssetName eTable
  let schemaId ← getParentAssetId eTable
  let tableIdentity ← getTableIdentity doc tableName schemaId
  return "_ngo:" ++ jsToLower colName ++ jsReplace tableIdentity "_ngo:table:" "::"

/-- `getColumnIdentityFromTableIdentity(colName, tableIdentity)`: compose the
column identity from an already computed table identity string. -/
def getColumnIdentityFromTableIdentity (colName tableIdentity : String) : String :=
  "_ngo:" ++ jsToLower colName ++ jsReplace tableIdentity "_ngo:table:" "::"

/-- `getRepositoryIdFromDSSourceId(entryFlows, DSSourceId)`: `sourceIDs` of the
first ENTRY flow whose `targetIDs` equals the DataStage id, else `null`. -/
def getRepositoryIdFromDSSourceId (entryFlows : List FlowEdge) (dsSourceId : String) :
    Option String :=
  (entryFlows.find? (fun f => f.targetIDs == dsSourceId)).map FlowEdge.sourceIDs

/-- `getRepositoryIdFromDSTargetId(exitFlows, DSTargetId)`: `targetIDs` of the
first EXIT flow whose `sourceIDs` equals the DataStage id, else `null`. -/
def getRepositoryIdFromDSTargetId (exitFlows : List FlowEdge) (dsTargetId : String) :
    Option String :=
  (exitFlows.find? (fun f => f.sourceIDs == dsTargetId)).map FlowEdge.targetIDs

/-- `getSubflowBySourceId(flows, sourceId)`: first flow of the group whose
`sourceIDs` attribute equals `sourceId` exactly. -/
def getSubflowBySourceId (flows : List FlowEdge) (sourceId : String) : Option FlowEdge :=
  flows.find? (fun f => f.sourceIDs == sourceId)

/-- `addAsset(...)`: append a new asset element; the `name` attribute child is
always added first, extra attributes after it, and a `reference` child is
added when both parent fields are given.  `some l` models a call passing an
actual array of extra attributes (the class variant's behaviour, as in
`LineageWorkbook.generateFlowXML`); `none` models calls that omit the
argument, which skip the extra-attribute loop — the behaviour of the
historical prototype `addAsset`, whose eight-parameter signature the
sample's calls match.  The class variant as written instead throws on an
omitted argument, although its own documentation marks the parameter
optional: its `additionalAttrs !== null` guard admits `undefined` and the
loop header reads `undefined.length`; that error path is embedded
separately as `addAssetClass`. -/
def addAsset (doc : FlowDoc) (className name rid xmlId matchByName virtualOnly : String)
    (parentType parentId : Option String) (additionalAttrs : Option (List FlowAttr)) :
    FlowDoc :=
  let attrs := ⟨"name", name⟩ :: (match additionalAttrs with
    | some l => l
    | none => [])
  let refs : List FlowRef :=
    match parentType, parentId with
    | some pt, some pid => [⟨pt, pid⟩]
    | _, _ => []
  { doc with assets := doc.assets ++
      [{ klass := className, repr := name, externalID := rid, ID := xmlId,
         matchByName := matchByName, virtualOnly := virtualOnly,
         attributes := attrs, references := refs }] }

/-- Replace the first occurrence of the flow `old` by `new1`; models the
in-place DOM mutation of the element returned by `getSubflowBySourceId`. -/
def replaceFirstFlow : List FlowEdge → FlowEdge → FlowEdge → List FlowEdge
  | [], _, _ => []
  | x :: xs, old, new1 =>
    if x = old then new1 :: xs else x :: replaceFirstFlow xs old new1

/-- `addFlow(flowsSection, existingFlow, sourceIDs, targetIDs, comment,
bReplace)`: with no existing flow, append a brand new flow element; with an
existing flow, either overwrite its targets and comment (`bReplace`) or append
the new targets space-joined and the new comment after `" and "`. -/
def addFlow (flows : List FlowEdge) (existingFlow : Option FlowEdge)
    (sourceIDs targetIDs comment : String) (bReplace : Bool) : List FlowEdge :=
  match existingFlow with
  | none => flows ++ [{ sourceIDs := sourceIDs, targetIDs := targetIDs, comment := comment }]
  | some f =>
    if bReplace then
      replaceFirstFlow flows f { f with targetIDs := targetIDs, comment := comment }
    else
      replaceFirstFlow flows f
        { f with targetIDs := f.targetIDs ++ " " ++ targetIDs,
                 comment := f.comment ++ " and " ++ comment }

/-! ## The historical prototype-based FlowHandler variant

`classes/flow-handler.js` also carries the older prototype-based
`FlowHandler`; its identity functions are re-embedded here separately so the
two variants can be compared. -/

/-- Prototype-variant `getTableIdentity` (second half of
`classes/flow-handler.js`). -/
def protoGetTableIdentity (doc : FlowDoc) (tblName schemaId : String) : Option String := do
  let eSchema ← getAssetById doc schemaId
  let schemaName := getAssetName eSchema
  let dcnId ← getParentAssetId eSchema
  let eDCN ← getAssetById doc dcnId
  let dcnName := getAssetName eDCN
  let creationTool ← getAttrValueByName eDCN "creationTool"
  let hostId ← getParentAssetId eDCN
  let eHost ← getAssetById doc hostId
  let hostName := getAssetName eHost
  return "_ngo:table:" ++
    "_ngo:db:" ++ jsToLower hostName ++
    "::" ++ jsToLower dcnName ++
    "::" ++ jsToLower creationTool ++
    "::" ++ jsToLower schemaName ++
    "::" ++ jsToLower tblName

/-- Prototype-variant `getColumnIdentity`. -/
def protoGetColumnIdentity (doc : FlowDoc) (colName tableId : String) : Option String := do
  let eTable ← getAssetById doc tableId
  let tableName := getAssetName eTable
  let schemaId ← getParentAssetId eTable
  let tableIdentity ← protoGetTableIdentity doc tableName schemaId
  return "_ngo:" ++ jsToLower colName ++ jsReplace tableIdentity "_ngo:table:" "::"

/-- Prototype-variant `getColumnIdentityFromTableIdentity`. -/
def protoGetColumnIdentityFromTableIdentity (colName tableIdentity : String) : String :=
  "_ngo:" ++ jsToLower colName ++ jsReplace tableIdentity "_ngo:table:" "::"

/-! ## Theorems for the identity resolver -/

/-- A concrete flow document with a full host → container → schema → table
chain, used to evaluate the identity functions. -/
def identDoc : FlowDoc :=
  { assets :=
      [ { klass := "ASCLModel.HostSystem", repr := "HOST", externalID := "r0", ID := "h1",
          matchByName := "true", virtualOnly := "false", attributes := [⟨"name", "HOST"⟩],
          references := [] },
        { klass := "ASCLModel.Database", repr := "MYDB", externalID := "r1", ID := "d1",
          matchByName := "true", virtualOnly := "false",
          attributes := [⟨"name", "MYDB"⟩, ⟨"creationTool", "DB2"⟩],
          references := [⟨"of_HostSystem", "h1"⟩] },
        { klass := "ASCLModel.DataSchema", repr := "SCH", externalID := "r2", ID := "s1",
          matchByName := "true", virtualOnly := "false", attributes := [⟨"name", "SCH"⟩],
          references := [⟨"of_Database", "d1"⟩] },
        { klass := "ASCLModel.DatabaseTable", repr := "TBL", externalID := "r3", ID := "t1",
          matchByName := "true", virtualOnly := "false", attributes := [⟨"name", "TBL"⟩],
          references := [⟨"of_DataSchema", "s1"⟩] } ] }

/-- C2: for every column name and every table asset with local id `tableId`,
name `nm` and parent reference `schemaId`, `getColumnIdentity col tableId`
equals `getColumnIdentityFromTableIdentity col (getTableIdentity nm schemaId)`
character for character. -/
theorem c2_column_identity_roundtrip (doc : FlowDoc) (col tableId nm schemaId : String)
    (a : Asset) (tid : String)
    (ha : getAssetById doc tableId = some a)
    (hname : getAssetName a = nm)
    (hparent : getParentAssetId a = some schemaId)
    (htid : getTableIdentity doc nm schemaId = some tid) :
    getColumnIdentity doc col tableId =
      some (getColumnIdentityFromTableIdentity col tid) := by
  simp only [getColumnIdentity, ha, Option.bind_eq_bind, Option.some_bind, hname, hparent,
    htid, getColumnIdentityFromTableIdentity, Option.pure_def]

/-- Witness for C2 at the concrete document `identDoc`. -/
theorem c2_column_identity_roundtrip_witness :
    getColumnIdentity identDoc "COL" "t1" =
      some (getColumnIdentityFromTableIdentity "COL"
        "_ngo:table:_ngo:db:host::mydb::db2::sch::tbl") :=
  c2_column_identity_roundtrip identDoc "COL" "t1" "TBL" "s1"
    { klass := "ASCLModel.DatabaseTable", repr := "TBL", externalID := "r3", ID := "t1",
      matchByName := "true", virtualOnly := "false", attributes := [⟨"name", "TBL"⟩],
      references := [⟨"of_DataSchema", "s1"⟩] }
    "_ngo:table:_ngo:db:host::mydb::db2::sch::tbl"
    (by decide) (by decide) (by decide) (by decide)

/-- C8 counterexample: `getTableIdentity` does not return the literal
composition `table:db:<host>::<container>::<creationTool>::<schema>::<table>`;
the returned string carries the `_ngo:table:` and `_ngo:db:` markers. -/
theorem c8_table_identity_counterexample :
    getTableIdentity identDoc "TBL" "s1" ≠
      some ("table:db:" ++ "host" ++ "::" ++ "mydb" ++ "::" ++ "db2" ++
        "::" ++ "sch" ++ "::" ++ "tbl") ∧
    getTableIdentity identDoc "TBL" "s1" =
      some "_ngo:table:_ngo:db:host::mydb::db2::sch::tbl" := by
  constructor
  · decide
  · decide

/-- C8 (amended): when the schema → container → host chain resolves and the
container carries a `creationTool` attribute, `getTableIdentity` returns
`_ngo:table:_ngo:db:<host>::<container>::<creationTool>::<schema>::<table>`
with each segment lower-cased. -/
theorem c8_table_identity_amended (doc : FlowDoc) (tblName schemaId dcnId hostId ct : String)
    (eSchema eDCN eHost : Asset)
    (hs : getAssetById doc schemaId = some eSchema)
    (hsp : getParentAssetId eSchema = some dcnId)
    (hd : getAssetById doc dcnId = some eDCN)
    (hct : getAttrValueByName eDCN "creationTool" = some ct)
    (hdp : getParentAssetId eDCN = some hostId)
    (hh : getAssetById doc hostId = some eHost) :
    getTableIdentity doc tblName schemaId =
      some ("_ngo:table:" ++ "_ngo:db:" ++ jsToLower (getAssetName eHost) ++
        "::" ++ jsToLower (getAssetName eDCN) ++
        "::" ++ jsToLower ct ++
        "::" ++ jsToLower (getAssetName eSchema) ++
        "::" ++ jsToLower tblName) := by
  simp only [getTableIdentity, hs, Option.bind_eq_bind, Option.some_bind, hsp, hd, hct,
    hdp, hh, Option.pure_def]

/-- Witness for the amended C8 at the concrete document `identDoc`. -/
theorem c8_table_identity_amended_witness :
    getTableIdentity identDoc "TBL" "s1" =
      some ("_ngo:table:" ++ "_ngo:db:" ++ jsToLower "HOST" ++
        "::" ++ jsToLower "MYDB" ++ "::" ++ jsToLower "DB2" ++
        "::" ++ jsToLower "SCH" ++ "::" ++ jsToLower "TBL") :=
  c8_table_identity_amended identDoc "TBL" "s1" "d1" "h1" "DB2"
    { klass := "ASCLModel.DataSchema", repr := "SCH", externalID := "r2", ID := "s1",
      matchByName := "true", virtualOnly := "false", attributes := [⟨"name", "SCH"⟩],
      references := [⟨"of_Database", "d1"⟩] }
    { klass := "ASCLModel.Database", repr := "MYDB", externalID := "r1", ID := "d1",
      matchByName := "true", virtualOnly := "false",
      attributes := [⟨"name", "MYDB"⟩, ⟨"creationTool", "DB2"⟩],
      references := [⟨"of_HostSystem", "h1"⟩] }
    { klass := "ASCLModel.HostSystem", repr := "HOST", externalID := "r0", ID := "h1",
      matchByName := "true", virtualOnly := "false", attributes := [⟨"name", "HOST"⟩],
      references := [] }
    (by decide) (by decide) (by decide) (by decide) (by decide) (by decide)

/-- C10: the class-based and the prototype-based identity resolver variants
are extensionally equal on `getTableIdentity`, `getColumnIdentity` and
`getColumnIdentityFromTableIdentity`. -/
theorem c10_proto_class_equivalence (doc : FlowDoc) (tblName schemaId colName tableId tid : String) :
    protoGetTableIdentity doc tblName schemaId = getTableIdentity doc tblName schemaId ∧
    protoGetColumnIdentity doc colName tableId = getColumnIdentity doc colName tableId ∧
    protoGetColumnIdentityFromTableIdentity colName tid =
      getColumnIdentityFromTableIdentity colName tid := by
  refine ⟨rfl, ?_, rfl⟩
  simp only [protoGetColumnIdentity, getColumnIdentity, protoGetTableIdentity,
    getTableIdentity]

/-! ## Run document model (`classes/omd-handler.js`)

An operational-metadata document: `Design` and `Deployment` software-resource
locators, actual parameters (each with a nested locator and a `Value`
attribute), `Read`/`Write` events carrying a data-resource locator and a
`ReferenceDC` pointer, and data collections.  A locator is modelled as the
list of its `LocatorComponent` elements in document order. -/

/-- A `LocatorComponent` element: `Class`, `SubClass` and `Name` attributes. -/
structure LocatorComponent where
  klass : String
  subclass : String
  name : String
  deriving DecidableEq, Repr

/-- An `ActualParameter` element: its `SoftwareResourceLocator` components and
its `Value` attribute. -/
structure ActualParameter where
  locator : List LocatorComponent
  value : String
  deriving DecidableEq, Repr

/-- An `Event` element: the `Type` attribute, the components of its
`DataResourceLocator`, and the `ReferenceDC` attribute of its
`SoftwareResourceLocator`. -/
structure OMDEvent where
  etype : String
  dataResource : List LocatorComponent
  locatorRefDC : String
  deriving DecidableEq, Repr

/-- A `DataCollection` element: its `Ident` and the names of its `DataField`
children. -/
structure DataCollection where
  ident : String
  fields : List String
  deriving DecidableEq, Repr

/-- A run document, reduced to the parts the verified operations touch. -/
structure RunDoc where
  design : List LocatorComponent
  deployment : List LocatorComponent
  parameters : List ActualParameter
  events : List OMDEvent
  dataCollections : List DataCollection
  deriving DecidableEq, Repr

/-- First locator component with the given `Class` attribute
(`LocatorComponent[@Class='k']`). -/
def findComp (l : List LocatorComponent) (k : String) : Option LocatorComponent :=
  l.find? (fun c => c.klass == k)

/-- First locator component with the given `SubClass` attribute
(`LocatorComponent[@SubClass='sc']`). -/
def findCompBySubclass (l : List LocatorComponent) (sc : String) : Option LocatorComponent :=
  l.find? (fun c => c.subclass == sc)

/-- First event with the given `Type` attribute (`Event[@Type='t']`), as used
by `getReadEvent`/`getWriteEvent`. -/
def findEvent (evs : List OMDEvent) (t : String) : Option OMDEvent :=
  evs.find? (fun e => e.etype == t)

/-- `getDataResourceHost`: name of the `Class='Computer'` component. -/
def getDataResourceHost (l : List LocatorComponent) : Option String :=
  (findComp l "Computer").map LocatorComponent.name

/-- `getDataResourceStore`: name of the `Class='DataStore'` component. -/
def getDataResourceStore (l : List LocatorComponent) : Option String :=
  (findComp l "DataStore").map LocatorComponent.name

/-- `getDataResourceSchema`: name of the `Class='DataSchema'` component. -/
def getDataResourceSchema (l : List LocatorComponent) : Option String :=
  (findComp l "DataSchema").map LocatorComponent.name

/-- `getDataResourceTable`: name of the `SubClass='Table'` component. -/
def getDataResourceTable (l : List LocatorComponent) : Option String :=
  (findCompBySubclass l "Table").map LocatorComponent.name

/-- `getDataResourceIdentity(dataResource)`: compose
`host::store::schema::table` from the four typed components. -/
def getDataResourceIdentity (l : List LocatorComponent) : Option String := do
  let host ← getDataResourceHost l
  let store ← getDataResourceStore l
  let schema ← getDataResourceSchema l
  let table ← getDataResourceTable l
  return host ++ "::" ++ store ++ "::" ++ schema ++ "::" ++ table

/-- Overwrite the `Name` of the first `Class='Computer'` component (the DOM
`setAttribute` on the element returned by `_getHostElement`); `none` when no
such component exists (the JavaScript would throw). -/
def setHostName : List LocatorComponent → String → Option (List LocatorComponent)
  | [], _ => none
  | c :: cs, v =>
    if c.klass == "Computer" then some ({ c with name := v } :: cs)
    else (setHostName cs v).map (fun cs2 => c :: cs2)

/-- One iteration of the `replaceHostname` parameter loop: read the host
component and the formal-parameter name, rewrite the `Value` to
`<originalHost>__<originalValue>` when the formal name is
`SourceConnectionString` or `TargetConnectionString`, then overwrite the host
component's name.  The value rewrite reads the host name captured before the
overwrite. -/
def replaceParamHost (p : ActualParameter) (h : String) : Option ActualParameter := do
  let eParamHost ← findComp p.locator "Computer"
  let formal ← findComp p.locator "FormalParameter"
  let p1 :=
    if formal.name == "SourceConnectionString" || formal.name == "TargetConnectionString" then
      { p with value := eParamHost.name ++ "__" ++ p.value }
    else p
  let loc2 ← setHostName p1.locator h
  return { p1 with locator := loc2 }

/-- The `replaceHostname` loop over `/Run/ActualParameters/ActualParameter`,
in document order. -/
def mapParams (h : String) : List ActualParameter → Option (List ActualParameter)
  | [] => some []
  | p :: ps => do
    let p2 ← replaceParamHost p h
    let ps2 ← mapParams h ps
    return p2 :: ps2

/-- Replace the data-resource locator of the first event with the given
`Type` (the DOM mutation of the element found by `getReadEvent` or
`getWriteEvent`). -/
def updateFirstEvent : List OMDEvent → String → List LocatorComponent → List OMDEvent
  | [], _, _ => []
  | e :: es, t, loc =>
    if e.etype == t then { e with dataResource := loc } :: es
    else e :: updateFirstEvent es t loc

/-- `replaceHostname(targetHostname)`: overwrite the deployment locator host,
process every actual parameter, then overwrite the hosts of the Read and
Write event data-resource locators. -/
def replaceHostname (doc : RunDoc) (targetHostname : String) : Option RunDoc := do
  let dep ← setHostName doc.deployment targetHostname
  let ps ← mapParams targetHostname doc.parameters
  let eReadEvent ← findEvent doc.events "Read"
  let readLoc ← setHostName eReadEvent.dataResource targetHostname
  let evs1 := updateFirstEvent doc.events "Read" readLoc
  let eWriteEvent ← findEvent evs1 "Write"
  let writeLoc ← setHostName eWriteEvent.dataResource targetHostname
  let evs2 := updateFirstEvent evs1 "Write" writeLoc
  return { doc with deployment := dep, parameters := ps, events := evs2 }

/-- The fingerprint object built by `getUniqueRuntimeIdentity`. -/
structure RuntimeIdentity where
  project : String
  job : String
  parameters : List (String × String)
  source : String
  sourceColumns : List String
  target : String
  targetColumns : List String
  deriving DecidableEq, Repr

/-- The `getUniqueRuntimeIdentity` parameter loop: pair each actual
parameter's formal name with its value, in document order. -/
def paramPairs : List ActualParameter → Option (List (String × String))
  | [] => some []
  | p :: ps => do
    let formal ← findComp p.locator "FormalParameter"
    let rest ← paramPairs ps
    return (formal.name, p.value) :: rest

/-- JavaScript object property read on the parameters map: later assignments
shadow earlier ones; a missing property reads as `undefined`, which string
concatenation renders as `"undefined"`. -/
def jsObjGetOrUndefined (m : List (String × String)) (k : String) : String :=
  match (m.reverse.find? (fun q => q.1 == k)).map Prod.snd with
  | some v => v
  | none => "undefined"

/-- `DataCollection[@Ident='id']` lookup. -/
def findDataCollection (doc : RunDoc) (id : String) : Option DataCollection :=
  doc.dataCollections.find? (fun c => c.ident == id)

/-- `getDataCollectionColumns`: the names of the collection's data fields. -/
def getDataCollectionColumns (c : DataCollection) : List String := c.fields

/-- `getUniqueRuntimeIdentity()`: project and job names from the Design
locator, the parameter map, and the Read/Write resource identities with the
blank-schema segment `":: ::"` replaced by the respective connection-string
parameter value. -/
def getUniqueRuntimeIdentity (doc : RunDoc) : Option RuntimeIdentity := do
  let projComp ← findCompBySubclass doc.design "Project"
  let jobComp ← findCompBySubclass doc.design "Job"
  let params ← paramPairs doc.parameters
  let eReadEvent ← findEvent doc.events "Read"
  let sourceIdentity ← getDataResourceIdentity eReadEvent.dataResource
  let source := jsReplace sourceIdentity ":: ::"
      ("::" ++ jsObjGetOrUndefined params "SourceConnectionString" ++ "::")
  let eSourceDC ← findDataCollection doc eReadEvent.locatorRefDC
  let sourceColumns := getDataCollectionColumns eSourceDC
  let eWriteEvent ← findEvent doc.events "Write"
  let targetIdentity ← getDataResourceIdentity eWriteEvent.dataResource
  let target := jsReplace targetIdentity ":: ::"
      ("::" ++ jsObjGetOrUndefined params "TargetConnectionString" ++ "::")
  let eTargetDC ← findDataCollection doc eWriteEvent.locatorRefDC
  let targetColumns := getDataCollectionColumns eTargetDC
  return { project := projComp.name, job := jobComp.name, parameters := params,
           source := source, sourceColumns := sourceColumns,
           target := target, targetColumns := targetColumns }

/-! ## Lemmas about `setHostName`, `mapParams` and `updateFirstEvent` -/

/-- A successful `setHostName` found a first `Computer` component, renamed it
to the target host, and left every other kind of component lookup unchanged. -/
theorem setHostName_find (v : String) :
    ∀ l l2 : List LocatorComponent, setHostName l v = some l2 →
      ∃ c, findComp l "Computer" = some c ∧
        findComp l2 "Computer" = some { c with name := v } ∧
        ∀ k, k ≠ "Computer" → findComp l2 k = findComp l k
  | [], l2, h => by simp [setHostName] at h
  | x :: xs, l2, h => by
    by_cases hx : x.klass = "Computer"
    · refine ⟨x, ?_, ?_, ?_⟩
      · simp [findComp, List.find?_cons_of_pos, hx]
      · simp only [setHostName, hx, beq_self_eq_true, if_true, Option.some.injEq] at h
        subst h
        simp [findComp, List.find?_cons_of_pos, hx]
      · intro k hk
        simp only [setHostName, hx, beq_self_eq_true, if_true, Option.some.injEq] at h
        subst h
        have hxk : ¬ (x.klass = k) := by rw [hx]; exact fun hcontra => hk hcontra.symm
        have hck : ¬ (("Computer" : String) = k) := fun hcontra => hk hcontra.symm
        simp [findComp, List.find?_cons_of_neg, hxk, hck]
    · simp only [setHostName, beq_iff_eq, hx, if_false, Option.map_eq_some'] at h
      obtain ⟨cs2, hcs2, rfl⟩ := h
      obtain ⟨c, hc1, hc2, hframe⟩ := setHostName_find v xs cs2 hcs2
      refine ⟨c, ?_, ?_, ?_⟩
      · simp [findComp, List.find?_cons_of_neg, hx, hc1]
        exact hc1
      · simp [findComp, List.find?_cons_of_neg, hx] at hc2 ⊢
        exact hc2
      · intro k hk
        by_cases hxk : x.klass = k
        · simp [findComp, List.find?_cons_of_pos, hxk]
        · simp only [findComp] at hframe ⊢
          rw [List.find?_cons_of_neg, List.find?_cons_of_neg]
          · exact hframe k hk
          · simp [hxk]
          · simp [hxk]

/-- A successful parameter loop preserves length and processes the parameter
at every index independently. -/
theorem mapParams_idx (h : String) :
    ∀ (ps qs : List ActualParameter), mapParams h ps = some qs →
      qs.length = ps.length ∧
      ∀ (i : Nat) (p : ActualParameter), ps[i]? = some p →
        ∃ q, qs[i]? = some q ∧ replaceParamHost p h = some q
  | [], qs, hm => by
    simp only [mapParams, Option.some.injEq] at hm
    subst hm
    exact ⟨rfl, by intro i p hp; simp at hp⟩
  | p :: ps, qs, hm => by
    simp only [mapParams, Option.bind_eq_bind, Option.bind_eq_some, Option.pure_def,
      Option.some.injEq] at hm
    obtain ⟨p2, hp2, ps2, hps2, rfl⟩ := hm
    obtain ⟨hlen, hidx⟩ := mapParams_idx h ps ps2 hps2
    refine ⟨by simp [hlen], ?_⟩
    intro i q hq
    cases i with
    | zero =>
      simp only [List.getElem?_cons_zero, Option.some.injEq] at hq
      subst hq
      exact ⟨p2, by simp, hp2⟩
    | succ j =>
      simp only [List.getElem?_cons_succ] at hq ⊢
      exact hidx j q hq

/-- `updateFirstEvent` never changes the `Type` and `ReferenceDC` attributes
of any event. -/
theorem updateFirstEvent_shape (t : String) (loc : List LocatorComponent) :
    ∀ evs : List OMDEvent,
      (updateFirstEvent evs t loc).map (fun e => (e.etype, e.locatorRefDC)) =
        evs.map (fun e => (e.etype, e.locatorRefDC))
  | [] => rfl
  | e :: es => by
    by_cases he : e.etype == t
    · simp [updateFirstEvent, he]
    · simp [updateFirstEvent, he, updateFirstEvent_shape t loc es]

/-- Looking up the updated event type after `updateFirstEvent` returns the
found event with the new data-resource locator. -/
theorem findEvent_updateFirstEvent_self (t : String) (loc : List LocatorComponent) :
    ∀ (evs : List OMDEvent) (e : OMDEvent), findEvent evs t = some e →
      findEvent (updateFirstEvent evs t loc) t = some { e with dataResource := loc }
  | [], e, he => by simp [findEvent] at he
  | x :: xs, e, he => by
    by_cases hx : x.etype = t
    · have hfind : findEvent (x :: xs) t = some x := by
        simp [findEvent, List.find?_cons_of_pos, hx]
      rw [hfind] at he
      injection he with he
      subst he
      simp [updateFirstEvent, hx, findEvent, List.find?_cons_of_pos]
    · have hstep : findEvent (x :: xs) t = findEvent xs t := by
        simp [findEvent, List.find?_cons_of_neg, hx]
      rw [hstep] at he
      have := findEvent_updateFirstEvent_self t loc xs e he
      simp only [updateFirstEvent, beq_iff_eq, hx, if_false]
      simpa [findEvent, List.find?_cons_of_neg, hx] using this

/-- Looking up a different event type is unaffected by `updateFirstEvent`. -/
theorem findEvent_updateFirstEvent_other (t u : String) (loc : List LocatorComponent)
    (hne : u ≠ t) :
    ∀ evs : List OMDEvent, findEvent (updateFirstEvent evs t loc) u = findEvent evs u
  | [] => rfl
  | x :: xs => by
    have htu : ¬ (t = u) := fun hcontra => hne hcontra.symm
    by_cases hx : x.etype = t
    · have hxu : ¬ (x.etype = u) := by rw [hx]; exact htu
      simp [updateFirstEvent, hx, findEvent, List.find?_cons_of_neg, hxu, htu]
    · by_cases hxu : x.etype = u
      · simp [updateFirstEvent, hx, findEvent, List.find?_cons_of_pos, hxu, hne]
      · have hrec := findEvent_updateFirstEvent_other t u loc hne xs
        simp only [findEvent] at hrec
        simp [updateFirstEvent, hx, findEvent, List.find?_cons_of_neg, hxu, hrec]

/-- Decomposition of a successful `replaceHostname` run into its five stages. -/
theorem replaceHostname_parts (doc : RunDoc) (H : String) (doc2 : RunDoc)
    (hrun : replaceHostname doc H = some doc2) :
    ∃ dep ps re rl we wl,
      setHostName doc.deployment H = some dep ∧
      mapParams H doc.parameters = some ps ∧
      findEvent doc.events "Read" = some re ∧
      setHostName re.dataResource H = some rl ∧
      findEvent (updateFirstEvent doc.events "Read" rl) "Write" = some we ∧
      setHostName we.dataResource H = some wl ∧
      doc2.deployment = dep ∧ doc2.parameters = ps ∧
      doc2.events = updateFirstEvent (updateFirstEvent doc.events "Read" rl) "Write" wl ∧
      doc2.design = doc.design ∧ doc2.dataCollections = doc.dataCollections := by
  simp only [replaceHostname, Option.bind_eq_bind, Option.bind_eq_some, Option.pure_def,
    Option.some.injEq] at hrun
  obtain ⟨dep, hdep, ps, hps, re, hre, rl, hrl, we, hwe, wl, hwl, heq⟩ := hrun
  subst heq
  exact ⟨dep, ps, re, rl, we, wl, hdep, hps, hre, hrl, hwe, hwl, rfl, rfl, rfl, rfl, rfl⟩

/-- C5: after `replaceHostname doc H`, every actual parameter whose
formal-parameter name is exactly `SourceConnectionString` or
`TargetConnectionString` has value `<originalHost>__<originalValue>` — built
from the host name read before the overwrite — and its locator host is `H`. -/
theorem c5_connection_string_value_rewrite (doc : RunDoc) (H : String) (doc2 : RunDoc)
    (i : Nat) (p : ActualParameter) (f hostComp : LocatorComponent)
    (hrun : replaceHostname doc H = some doc2)
    (hp : doc.parameters[i]? = some p)
    (hf : findComp p.locator "FormalParameter" = some f)
    (hn : f.name = "SourceConnectionString" ∨ f.name = "TargetConnectionString")
    (hh : findComp p.locator "Computer" = some hostComp) :
    ∃ p2, doc2.parameters[i]? = some p2 ∧
      p2.value = hostComp.name ++ "__" ++ p.value ∧
      (findComp p2.locator "Computer").map LocatorComponent.name = some H := by
  obtain ⟨dep, ps, re, rl, we, wl, hdep, hps, hre, hrl, hwe, hwl, hdocDep, hdocPar,
    hdocEv, hdocDesign, hdocDC⟩ := replaceHostname_parts doc H doc2 hrun
  obtain ⟨hlen, hidx⟩ := mapParams_idx H doc.parameters ps hps
  obtain ⟨q, hq, hrep⟩ := hidx i p hp
  have hcond : (f.name == "SourceConnectionString" ||
      f.name == "TargetConnectionString") = true := by
    rcases hn with h1 | h1 <;> simp [h1]
  simp only [replaceParamHost, hh, hf, Option.bind_eq_bind, Option.some_bind, hcond,
    if_true, Option.bind_eq_some, Option.pure_def, Option.some.injEq] at hrep
  obtain ⟨loc2, hloc2, hqeq⟩ := hrep
  obtain ⟨c, hc1, hc2, _⟩ := setHostName_find H _ _ hloc2
  rw [hh] at hc1
  injection hc1 with hc1
  subst hc1
  refine ⟨q, ?_, ?_, ?_⟩
  · rw [hdocPar]
    exact hq
  · rw [← hqeq]
  · rw [← hqeq]
    simp [hc2]

/-- `l2` is `l` with exactly the `Name` of the first `Class='Computer'`
component replaced by `v`: every component before it, every component after
it, and the other fields of the component itself are unchanged. -/
def locatorHostSet (l : List LocatorComponent) (v : String)
    (l2 : List LocatorComponent) : Prop :=
  ∃ l1 c l3, l = l1 ++ c :: l3 ∧ (∀ x ∈ l1, x.klass ≠ "Computer") ∧
    c.klass = "Computer" ∧ l2 = l1 ++ { c with name := v } :: l3

/-- A successful `setHostName` changes exactly the name of the first
`Computer` component and nothing else. -/
theorem setHostName_eq (v : String) :
    ∀ l l2 : List LocatorComponent, setHostName l v = some l2 → locatorHostSet l v l2
  | [], l2, h => by simp [setHostName] at h
  | x :: xs, l2, h => by
    by_cases hx : x.klass = "Computer"
    · simp only [setHostName, hx, beq_self_eq_true, if_true, Option.some.injEq] at h
      subst h
      exact ⟨[], x, xs, rfl, by simp, hx, by simp [hx]⟩
    · simp only [setHostName, beq_iff_eq, hx, if_false, Option.map_eq_some'] at h
      obtain ⟨cs2, hcs2, rfl⟩ := h
      obtain ⟨l1, c, l3, hl, hl1, hc, hl2⟩ := setHostName_eq v xs cs2 hcs2
      refine ⟨x :: l1, c, l3, by simp [hl], ?_, hc, by simp [hl2]⟩
      intro y hy
      rcases List.mem_cons.mp hy with rfl | hy2
      · exact hx
      · exact hl1 y hy2

/-- A successful parameter step leaves the locator equal to the result of
`setHostName` on the original locator (the value rewrite never touches the
locator). -/
theorem replaceParamHost_locator (p : ActualParameter) (h : String) (q : ActualParameter)
    (hq : replaceParamHost p h = some q) : setHostName p.locator h = some q.locator := by
  simp only [replaceParamHost, Option.bind_eq_bind, Option.bind_eq_some, Option.pure_def,
    Option.some.injEq] at hq
  obtain ⟨hostComp, hh, formal, hf, loc2, hloc2, hqeq⟩ := hq
  subst hqeq
  split at hloc2
  · exact hloc2
  · exact hloc2

/-- C6: after `replaceHostname doc H`, every actual parameter whose
formal-parameter name is not a connection string keeps its value while its
locator host becomes `H`; the deployment locator host and the hosts of the
Read and Write event data-resource locators become `H`; and everything else
is unchanged: the design locator and the data collections verbatim, every
locator (deployment, each parameter's, each touched event's) changed only in
the name of its first `Computer` component, every event other than the first
Read and the first Write verbatim, and the events' types and collection
references and the number of parameters preserved. -/
theorem c6_replace_hostname_frame (doc : RunDoc) (H : String) (doc2 : RunDoc)
    (hrun : replaceHostname doc H = some doc2) :
    (∀ (i : Nat) (p : ActualParameter) (f : LocatorComponent),
       doc.parameters[i]? = some p →
       findComp p.locator "FormalParameter" = some f →
       f.name ≠ "SourceConnectionString" → f.name ≠ "TargetConnectionString" →
       ∃ p2, doc2.parameters[i]? = some p2 ∧ p2.value = p.value ∧
         (findComp p2.locator "Computer").map LocatorComponent.name = some H ∧
         findComp p2.locator "FormalParameter" = some f)
    ∧ (findComp doc2.deployment "Computer").map LocatorComponent.name = some H
    ∧ (∀ e, findEvent doc2.events "Read" = some e →
         (findComp e.dataResource "Computer").map LocatorComponent.name = some H)
    ∧ (∀ e, findEvent doc2.events "Write" = some e →
         (findComp e.dataResource "Computer").map LocatorComponent.name = some H)
    ∧ doc2.design = doc.design
    ∧ doc2.dataCollections = doc.dataCollections
    ∧ doc2.events.map (fun e => (e.etype, e.locatorRefDC)) =
        doc.events.map (fun e => (e.etype, e.locatorRefDC))
    ∧ doc2.parameters.length = doc.parameters.length
    ∧ locatorHostSet doc.deployment H doc2.deployment
    ∧ (∀ (i : Nat) (p : ActualParameter), doc.parameters[i]? = some p →
         ∃ p2, doc2.parameters[i]? = some p2 ∧ locatorHostSet p.locator H p2.locator)
    ∧ (∃ re2 rl2 we2 wl2, findEvent doc.events "Read" = some re2 ∧
         locatorHostSet re2.dataResource H rl2 ∧
         findEvent (updateFirstEvent doc.events "Read" rl2) "Write" = some we2 ∧
         locatorHostSet we2.dataResource H wl2 ∧
         doc2.events = updateFirstEvent (updateFirstEvent doc.events "Read" rl2)
           "Write" wl2) := by
  obtain ⟨dep, ps, re, rl, we, wl, hdep, hps, hre, hrl, hwe, hwl, hdocDep, hdocPar,
    hdocEv, hdocDesign, hdocDC⟩ := replaceHostname_parts doc H doc2 hrun
  obtain ⟨hlen, hidx⟩ := mapParams_idx H doc.parameters ps hps
  refine ⟨?_, ?_, ?_, ?_, hdocDesign, hdocDC, ?_, ?_, ?_, ?_, ?_⟩
  · intro i p f hp hf hn1 hn2
    obtain ⟨q, hq, hrep⟩ := hidx i p hp
    have hcond : (f.name == "SourceConnectionString" ||
        f.name == "TargetConnectionString") = false := by
      simp [hn1, hn2]
    simp only [replaceParamHost, hf, Option.bind_eq_bind, Option.some_bind, hcond,
      Bool.false_eq_true, if_false, Option.bind_eq_some, Option.pure_def,
      Option.some.injEq] at hrep
    obtain ⟨hostComp, hhost, loc2, hloc2, hqeq⟩ := hrep
    obtain ⟨c, hc1, hc2, hframe⟩ := setHostName_find H _ _ hloc2
    refine ⟨q, ?_, ?_, ?_, ?_⟩
    · rw [hdocPar]
      exact hq
    · rw [← hqeq]
    · rw [← hqeq]
      simp [hc2]
    · rw [← hqeq]
      have hfp := hframe "FormalParameter" (by decide)
      simp only [hfp]
      exact hf
  · rw [hdocDep]
    obtain ⟨c, hc1, hc2, _⟩ := setHostName_find H _ _ hdep
    simp [hc2]
  · intro e he
    rw [hdocEv] at he
    have hr1 : findEvent (updateFirstEvent (updateFirstEvent doc.events "Read" rl)
        "Write" wl) "Read" = findEvent (updateFirstEvent doc.events "Read" rl) "Read" :=
      findEvent_updateFirstEvent_other "Write" "Read" wl (by decide) _
    have hr2 := findEvent_updateFirstEvent_self "Read" rl doc.events re hre
    rw [hr1, hr2, Option.some.injEq] at he
    subst he
    obtain ⟨c, hc1, hc2, _⟩ := setHostName_find H _ _ hrl
    simp [hc2]
  · intro e he
    rw [hdocEv] at he
    have hw := findEvent_updateFirstEvent_self "Write" wl _ we hwe
    rw [hw, Option.some.injEq] at he
    subst he
    obtain ⟨c, hc1, hc2, _⟩ := setHostName_find H _ _ hwl
    simp [hc2]
  · rw [hdocEv, updateFirstEvent_shape, updateFirstEvent_shape]
  · rw [hdocPar]
    simp [hlen]
  · rw [hdocDep]
    exact setHostName_eq H doc.deployment dep hdep
  · intro i p hp
    obtain ⟨q, hq, hrep⟩ := hidx i p hp
    refine ⟨q, ?_, ?_⟩
    · rw [hdocPar]
      exact hq
    · exact setHostName_eq H p.locator q.locator (replaceParamHost_locator p H q hrep)
  · exact ⟨re, rl, we, wl, hre, setHostName_eq H re.dataResource rl hrl, hwe,
      setHostName_eq H we.dataResource wl hwl, hdocEv⟩

/-- C7: `getUniqueRuntimeIdentity` reads the project and job fields only from
the Design locator components with `SubClass='Project'` and `SubClass='Job'`;
two run documents identical except for the Deployment locator yield identical
`project` and `job` fields. -/
theorem c7_design_locator_only (doc : RunDoc) (d : List LocatorComponent)
    (r r2 : RuntimeIdentity)
    (h : getUniqueRuntimeIdentity doc = some r)
    (h2 : getUniqueRuntimeIdentity { doc with deployment := d } = some r2) :
    r2.project = r.project ∧ r2.job = r.job ∧
    (findCompBySubclass doc.design "Project").map LocatorComponent.name = some r.project ∧
    (findCompBySubclass doc.design "Job").map LocatorComponent.name = some r.job := by
  have hsame : getUniqueRuntimeIdentity { doc with deployment := d } =
      getUniqueRuntimeIdentity doc := rfl
  rw [hsame, h, Option.some.injEq] at h2
  subst h2
  simp only [getUniqueRuntimeIdentity, Option.bind_eq_bind, Option.bind_eq_some,
    Option.pure_def, Option.some.injEq] at h
  obtain ⟨pc, hpc, jc, hjc, params, hparams, re, hre, si, hsi, sdc, hsdc, we, hwe, ti,
    hti, tdc, htdc, heq⟩ := h
  subst heq
  exact ⟨rfl, rfl, by simp [hpc], by simp [hjc]⟩

/-- C9: `getDataResourceIdentity` composes `host::store::schema::table` from
the `Computer`, `DataStore`, `DataSchema` and `SubClass='Table'` locator
components, performing no substitution: a blank schema name is returned
verbatim. -/
theorem c9_data_resource_identity (l : List LocatorComponent) (hostN storeN schemaN tableN : String)
    (hhost : getDataResourceHost l = some hostN)
    (hstore : getDataResourceStore l = some storeN)
    (hschema : getDataResourceSchema l = some schemaN)
    (htable : getDataResourceTable l = some tableN) :
    getDataResourceIdentity l =
      some (hostN ++ "::" ++ storeN ++ "::" ++ schemaN ++ "::" ++ tableN) ∧
    (schemaN = " " → getDataResourceIdentity l =
      some (hostN ++ "::" ++ storeN ++ "::" ++ " " ++ "::" ++ tableN)) := by
  constructor
  · simp only [getDataResourceIdentity, hhost, hstore, hschema, htable,
      Option.bind_eq_bind, Option.some_bind, Option.pure_def]
  · intro hblank
    subst hblank
    simp only [getDataResourceIdentity, hhost, hstore, hschema, htable,
      Option.bind_eq_bind, Option.some_bind, Option.pure_def]

/-! ## Concrete run documents for the witnesses -/

/-- A data-resource locator whose schema component is blank (a single space),
as produced by some source systems. -/
def blankSchemaLocator : List LocatorComponent :=
  [⟨"Computer", "", "enghost"⟩, ⟨"DataStore", "", "MYDB"⟩, ⟨"DataSchema", "", " "⟩,
   ⟨"DataCollection", "Table", "TBL1"⟩]

/-- Witness for C9 at the blank-schema locator. -/
theorem c9_data_resource_identity_witness :
    getDataResourceIdentity blankSchemaLocator =
      some ("enghost" ++ "::" ++ "MYDB" ++ "::" ++ " " ++ "::" ++ "TBL1") ∧
    (" " = " " → getDataResourceIdentity blankSchemaLocator =
      some ("enghost" ++ "::" ++ "MYDB" ++ "::" ++ " " ++ "::" ++ "TBL1")) :=
  c9_data_resource_identity blankSchemaLocator "enghost" "MYDB" " " "TBL1"
    (by decide) (by decide) (by decide) (by decide)

/-- The connection-string actual parameter of the witness run document. -/
def c5param : ActualParameter :=
  { locator := [⟨"Computer", "", "oldhost"⟩,
                ⟨"FormalParameter", "", "SourceConnectionString"⟩],
    value := "DSN1" }

/-- A plain actual parameter of the witness run document. -/
def c6param : ActualParameter :=
  { locator := [⟨"Computer", "", "oldhost"⟩, ⟨"FormalParameter", "", "RowsLimit"⟩],
    value := "100" }

/-- A concrete run document exercising `replaceHostname` and
`getUniqueRuntimeIdentity`. -/
def omdDoc : RunDoc :=
  { design := [⟨"SoftwareProduct", "", "IBM InfoSphere DataStage"⟩,
               ⟨"Project", "Project", "myproj"⟩, ⟨"Executable", "Job", "myjob"⟩],
    deployment := [⟨"Computer", "", "oldengine"⟩,
                   ⟨"Executable", "", "myjob.20170101T120000"⟩],
    parameters := [c5param, c6param],
    events := [⟨"Read", [⟨"Computer", "", "srchost"⟩, ⟨"DataStore", "", "SRCDB"⟩,
                         ⟨"DataSchema", "", "SSCH"⟩, ⟨"DataCollection", "Table", "T1"⟩],
                "dc1"⟩,
               ⟨"Write", [⟨"Computer", "", "tgthost"⟩, ⟨"DataStore", "", "TGTDB"⟩,
                          ⟨"DataSchema", "", "TSCH"⟩, ⟨"DataCollection", "Table", "T2"⟩],
                "dc2"⟩],
    dataCollections := [⟨"dc1", ["A", "B"]⟩, ⟨"dc2", ["C"]⟩] }

/-- The witness output document of `replaceHostname omdDoc "newhost"`. -/
def omdDocOut : RunDoc := (replaceHostname omdDoc "newhost").getD omdDoc

/-- Witness for C5: the `SourceConnectionString` parameter of `omdDoc` gets
value `oldhost__DSN1` and host `newhost`. -/
theorem c5_connection_string_value_rewrite_witness :
    ∃ p2, omdDocOut.parameters[0]? = some p2 ∧
      p2.value = "oldhost" ++ "__" ++ "DSN1" ∧
      (findComp p2.locator "Computer").map LocatorComponent.name = some "newhost" :=
  c5_connection_string_value_rewrite omdDoc "newhost" omdDocOut 0 c5param
    ⟨"FormalParameter", "", "SourceConnectionString"⟩ ⟨"Computer", "", "oldhost"⟩
    (by decide) (by decide) (by decide) (Or.inl rfl) (by decide)

/-- Witness for C6 at `omdDoc`. -/
theorem c6_replace_hostname_frame_witness :
    (∀ (i : Nat) (p : ActualParameter) (f : LocatorComponent),
       omdDoc.parameters[i]? = some p →
       findComp p.locator "FormalParameter" = some f →
       f.name ≠ "SourceConnectionString" → f.name ≠ "TargetConnectionString" →
       ∃ p2, omdDocOut.parameters[i]? = some p2 ∧ p2.value = p.value ∧
         (findComp p2.locator "Computer").map LocatorComponent.name = some "newhost" ∧
         findComp p2.locator "FormalParameter" = some f)
    ∧ (findComp omdDocOut.deployment "Computer").map LocatorComponent.name = some "newhost"
    ∧ (∀ e, findEvent omdDocOut.events "Read" = some e →
         (findComp e.dataResource "Computer").map LocatorComponent.name = some "newhost")
    ∧ (∀ e, findEvent omdDocOut.events "Write" = some e →
         (findComp e.dataResource "Computer").map LocatorComponent.name = some "newhost")
    ∧ omdDocOut.design = omdDoc.design
    ∧ omdDocOut.dataCollections = omdDoc.dataCollections
    ∧ omdDocOut.events.map (fun e => (e.etype, e.locatorRefDC)) =
        omdDoc.events.map (fun e => (e.etype, e.locatorRefDC))
    ∧ omdDocOut.parameters.length = omdDoc.parameters.length
    ∧ locatorHostSet omdDoc.deployment "newhost" omdDocOut.deployment
    ∧ (∀ (i : Nat) (p : ActualParameter), omdDoc.parameters[i]? = some p →
         ∃ p2, omdDocOut.parameters[i]? = some p2 ∧
           locatorHostSet p.locator "newhost" p2.locator)
    ∧ (∃ re2 rl2 we2 wl2, findEvent omdDoc.events "Read" = some re2 ∧
         locatorHostSet re2.dataResource "newhost" rl2 ∧
         findEvent (updateFirstEvent omdDoc.events "Read" rl2) "Write" = some we2 ∧
         locatorHostSet we2.dataResource "newhost" wl2 ∧
         omdDocOut.events = updateFirstEvent (updateFirstEvent omdDoc.events "Read" rl2)
           "Write" wl2) :=
  c6_replace_hostname_frame omdDoc "newhost" omdDocOut (by decide)

/-- A deployment locator differing from the one of `omdDoc` only by the
timestamp embedded in the executable name. -/
def laterDeployment : List LocatorComponent :=
  [⟨"Computer", "", "oldengine"⟩, ⟨"Executable", "", "myjob.20180202T090909"⟩]

/-- The fingerprint `getUniqueRuntimeIdentity` computes for `omdDoc`. -/
def omdRunIdentity : RuntimeIdentity :=
  (getUniqueRuntimeIdentity omdDoc).getD ⟨"", "", [], "", [], "", []⟩

/-- Witness for C7: the fingerprints of `omdDoc` and of the same document
with a later-timestamped deployment agree on project and job. -/
theorem c7_design_locator_only_witness :
    omdRunIdentity.project = omdRunIdentity.project ∧
    omdRunIdentity.job = omdRunIdentity.job ∧
    (findCompBySubclass omdDoc.design "Project").map LocatorComponent.name =
      some omdRunIdentity.project ∧
    (findCompBySubclass omdDoc.design "Job").map LocatorComponent.name =
      some omdRunIdentity.job :=
  c7_design_locator_only omdDoc laterDeployment omdRunIdentity omdRunIdentity
    (by decide) (by decide)

/-! ## The pivot-injection pass (`samples/createColumnLevelPivots.js`)

The pass state bundles the flow document, the three flow groups (aliases of
parts of the same document in the JavaScript), the id generators `id_gen` and
`ds_rid_gen`, the identity cache `hmObjectIdentitiesToIds`, the
`bHasBeenCustomised` flag, and the warnings printed so far.  A thrown
JavaScript error (dereferencing a missing asset or a `null` element) aborts
the whole pass and is modelled as `none`. -/

/-- State threaded through one customisation pass. -/
structure PassState where
  doc : FlowDoc
  entryG : List FlowEdge
  exitG : List FlowEdge
  systemG : List FlowEdge
  id_gen : Nat
  ds_rid_gen : Nat
  cache : List (String × String)
  customised : Bool
  warnings : List String
  deriving DecidableEq, Repr

/-- Assignment `hmObjectIdentitiesToIds[identity] = id`: later entries shadow
earlier ones. -/
def hmPut (m : List (String × String)) (k v : String) : List (String × String) :=
  (k, v) :: m

/-- `getIdForObjectIdentity(identity)`: the current binding, or `undefined`
(`none`). -/
def getIdForObjectIdentity (m : List (String × String)) (k : String) : Option String :=
  (m.find? (fun q => q.1 == k)).map Prod.snd

/-- `mapObjectToNextId(identity)`: bump `id_gen`, mint `"xt" + id_gen`, store
it under the identity and return it. -/
def mapObjectToNextId (st : PassState) (identity : String) : String × PassState :=
  let g := st.id_gen + 1
  let internalId := "xt" ++ toString g
  (internalId, { st with id_gen := g, cache := hmPut st.cache identity internalId })

/-- `getConditionalPivotColumnName(pivotColumn, condition)`. -/
def getConditionalPivotColumnName (pivotColumn condition : String) : String :=
  pivotColumn ++ " (for " ++ condition ++ ")"

/-- `getPivotVirtualTableName(pivotTable)`. -/
def getPivotVirtualTableName (pivotTable : String) : String :=
  "(pivot) " ++ pivotTable

/-- `injectSnippetForPivotColumn(pivotColName, ePivotCol, ePivotDS)`: ensure
the virtual pivot table exists (dedup through the identity cache), then add
the virtual database column and the virtual DataStage column.  The three
`fh.addAsset` calls pass eight arguments; this definition pairs them with
the prototype-signature `addAsset` semantics (argument absent, loop
skipped).  The pairing with the class-based `addAsset` as written — which
throws on those calls — is `injectSnippetForPivotColumnClass`. -/
def injectSnippetForPivotColumn (st : PassState) (pivotColName : String)
    (ePivotCol ePivotDS : Asset) : Option (String × PassState) := do
  let colParentId ← getParentAssetId ePivotCol
  let eParent ← getAssetById st.doc colParentId
  let pivotTblName := getPivotVirtualTableName (getAssetName eParent)
  let tblParentId ← getParentAssetId eParent
  let virtTblId ← getTableIdentity st.doc pivotTblName tblParentId
  let (internalTblId, st1) :=
    match getIdForObjectIdentity st.cache virtTblId with
    | some tid => (tid, st)
    | none =>
      let (tid, stNew) := mapObjectToNextId st virtTblId
      (tid, { stNew with
        doc := addAsset stNew.doc "ASCLModel.DatabaseTable" pivotTblName virtTblId tid
          "true" "true" (some "of_DataSchema") (some tblParentId) none,
        customised := true })
  let dsParentId ← getParentAssetId ePivotDS
  let dsBaseRID := getAssetRID ePivotDS
  let dsColId := "_ngo:" ++ jsAfterFirstDot dsBaseRID ++ "." ++ toString st1.ds_rid_gen
  let st2 := { st1 with ds_rid_gen := st1.ds_rid_gen + 1 }
  let virtColId := getColumnIdentityFromTableIdentity pivotColName virtTblId
  let (internalId, st3) := mapObjectToNextId st2 virtColId
  let internalIdDS := "ds" ++ internalId
  let doc2 := addAsset st3.doc "ASCLModel.DatabaseField" pivotColName virtColId internalId
    "true" "true" (some "of_DatabaseTableOrView") (some internalTblId) none
  let doc3 := addAsset doc2 "DataStageX.DSStageColumn" pivotColName dsColId internalIdDS
    "false" "true" (some "x_of_JobObject_DSLink") (some dsParentId) none
  return (internalId, { st3 with doc := doc3, customised := true })

/-- `injectSnippetForPivotFlowAsSource(...)`: add (or extend) the ENTRY flow
found by the entry source id, then add (or extend) the SYSTEM flow found by
the system source id, both in append mode. -/
def injectSnippetForPivotFlowAsSource (st : PassState)
    (sEntrySourceId sEntryTargetId sSystemSourceId sSystemTargetId : String)
    (commentForEntry commentForSystem : String) : PassState :=
  let eExistingMappingEntry := getSubflowBySourceId st.entryG sEntrySourceId
  let entry2 := addFlow st.entryG eExistingMappingEntry sEntrySourceId sEntryTargetId
    commentForEntry false
  let eExistingMappingSystem := getSubflowBySourceId st.systemG sSystemSourceId
  let system2 := addFlow st.systemG eExistingMappingSystem sSystemSourceId sSystemTargetId
    commentForSystem false
  { st with entryG := entry2, systemG := system2, customised := true }

/-- `injectSnippetForPivotFlowAsTarget(...)`: add (or extend) the EXIT flow
found by the exit source id, then add (or extend) the SYSTEM flow found by
the system source id, both in append mode. -/
def injectSnippetForPivotFlowAsTarget (st : PassState)
    (sExitSourceId sExitTargetId sSystemSourceId sSystemTargetId : String)
    (commentForExit commentForSystem : String) : PassState :=
  let eExistingMappingExit := getSubflowBySourceId st.exitG sExitSourceId
  let exit2 := addFlow st.exitG eExistingMappingExit sExitSourceId sExitTargetId
    commentForExit false
  let eExistingMappingSystem := getSubflowBySourceId st.systemG sSystemSourceId
  let system2 := addFlow st.systemG eExistingMappingSystem sSystemSourceId sSystemTargetId
    commentForSystem false
  { st with exitG := exit2, systemG := system2, customised := true }

/-- Inner loop of `resolveSourceToTargetMappings` over the split target ids.
`sTargetColName` and `eTarget` are re-initialised to `""`/`null` at each
iteration, but the loop variable `bTargetIsPivot` is function-scoped in the
JavaScript and is NOT reset when the EXIT lookup misses — a stale `true`
carries over into the `if (bTargetIsPivot)` injection with `eTarget = null`. -/
def targetLoop (pivotColumns : List String) (bSourceIsPivot : Bool)
    (sSourceId : String) (eSource : Asset) (sSourceColName : String) :
    PassState → Bool → List String → Option (Bool × PassState)
  | st, bTargetIsPivot, [] => some (bTargetIsPivot, st)
  | st, bTargetIsPivot, sTargetId :: rest => do
    let eTargetDS := getAssetById st.doc sTargetId
    let sTargetColId := getRepositoryIdFromDSTargetId st.exitG sTargetId
    let step : Option (PassState × Bool × String × Option Asset) :=
      match sTargetColId with
      | none =>
        some ({ st with warnings := st.warnings ++
          ["WARN: column for target not found!  (XML id: " ++ sTargetId ++ ")"] },
          bTargetIsPivot, "", none)
      | some tcid => do
        let eT ← getAssetById st.doc tcid
        let eTDS ← eTargetDS
        some (st, pivotColumns.contains (getAssetRID eTDS), getAssetName eT, some eT)
    let (st0, bTgt, sTargetColName, eTarget) ← step
    let st1 ←
      if bSourceIsPivot then do
        let sPivotColName := getConditionalPivotColumnName sSourceColName sTargetColName
        let eSrcDS ← getAssetById st0.doc sSourceId
        let (newId, stA) ← injectSnippetForPivotColumn st0 sPivotColName eSource eSrcDS
        some (injectSnippetForPivotFlowAsSource stA newId ("ds" ++ newId) ("ds" ++ newId)
          sTargetId ("[" ++ sPivotColName ++ "]")
          ("[" ++ sPivotColName ++ "] - [" ++ sTargetColName ++ "]"))
      else some st0
    let st2 ←
      if bTgt then do
        let sPivotColName := getConditionalPivotColumnName sTargetColName sSourceColName
        let eT ← eTarget
        let eTgtDS ← getAssetById st1.doc sTargetId
        let (newId, stB) ← injectSnippetForPivotColumn st1 sPivotColName eT eTgtDS
        some (injectSnippetForPivotFlowAsTarget stB ("ds" ++ newId) newId sSourceId
          ("ds" ++ newId) ("[" ++ sPivotColName ++ "]")
          ("[" ++ sSourceColName ++ "] - [" ++ sPivotColName ++ "]"))
      else some st1
    targetLoop pivotColumns bSourceIsPivot sSourceId eSource sSourceColName st2 bTgt rest

/-- Outer loop of `resolveSourceToTargetMappings` over the split source ids;
a missed ENTRY lookup logs a warning and skips the whole inner loop for that
source id. -/
def sourceLoop (pivotColumns : List String) (aTargetIDs : List String) :
    PassState → Bool → Bool → List String → Option PassState
  | st, _, _, [] => some st
  | st, bSourceIsPivot, bTargetIsPivot, sSourceId :: rest =>
    let eSourceDS := getAssetById st.doc sSourceId
    match getRepositoryIdFromDSSourceId st.entryG sSourceId with
    | none =>
      let st2 := { st with warnings := st.warnings ++
        ["WARN: column for source not found!  (XML id: " ++ sSourceId ++ ")"] }
      sourceLoop pivotColumns aTargetIDs st2 bSourceIsPivot bTargetIsPivot rest
    | some scid => do
      let eSource ← getAssetById st.doc scid
      let sSourceColName := getAssetName eSource
      let eSDS ← eSourceDS
      let bSrc := pivotColumns.contains (getAssetRID eSDS)
      let (bTgt2, st2) ← targetLoop pivotColumns bSrc sSourceId eSource sSourceColName
        st bTargetIsPivot aTargetIDs
      sourceLoop pivotColumns aTargetIDs st2 bSrc bTgt2 rest

/-- `resolveSourceToTargetMappings(entryFlows, exitFlows, systemFlows,
sources, targets)` for one SYSTEM edge: split both id lists on spaces and run
the two nested loops with both pivot flags initially `false`. -/
def resolveSourceToTargetMappings (pivotColumns : List String) (st : PassState)
    (sources targets : String) : Option PassState :=
  let aTargetIDs := jsSplitSpace targets
  let aSourceIDs := jsSplitSpace sources
  sourceLoop pivotColumns aTargetIDs st false false aSourceIDs

/-- The virtual database-column asset added by `injectSnippetForPivotColumn`. -/
def pivotFieldAsset (pivotColName virtColId internalId internalTblId : String) : Asset :=
  { klass := "ASCLModel.DatabaseField", repr := pivotColName, externalID := virtColId,
    ID := internalId, matchByName := "true", virtualOnly := "true",
    attributes := [⟨"name", pivotColName⟩],
    references := [⟨"of_DatabaseTableOrView", internalTblId⟩] }

/-- The virtual DataStage-column asset added by `injectSnippetForPivotColumn`. -/
def pivotDSAsset (pivotColName dsColId internalIdDS dsParentId : String) : Asset :=
  { klass := "DataStageX.DSStageColumn", repr := pivotColName, externalID := dsColId,
    ID := internalIdDS, matchByName := "false", virtualOnly := "true",
    attributes := [⟨"name", pivotColName⟩],
    references := [⟨"x_of_JobObject_DSLink", dsParentId⟩] }

/-- The virtual pivot-table asset added by `injectSnippetForPivotColumn`. -/
def pivotTableAsset (pivotTblName virtTblId internalTblId tblParentId : String) : Asset :=
  { klass := "ASCLModel.DatabaseTable", repr := pivotTblName, externalID := virtTblId,
    ID := internalTblId, matchByName := "true", virtualOnly := "true",
    attributes := [⟨"name", pivotTblName⟩],
    references := [⟨"of_DataSchema", tblParentId⟩] }

/-- Shadowed-map lookup skips a leading entry with a different key. -/
theorem getIdForObjectIdentity_cons_ne (m : List (String × String)) (k1 v k : String)
    (h : k1 ≠ k) : getIdForObjectIdentity ((k1, v) :: m) k = getIdForObjectIdentity m k := by
  simp [getIdForObjectIdentity, List.find?_cons_of_neg, h]

/-- The create-once/reuse-later behaviour of `injectSnippetForPivotColumn`
under the prototype-signature `addAsset` pairing (the behaviour the sample
was written against, and the intent the class variant's slip defeats — see
`c1_class_addasset_throws`): the first call with an uncached pivot-table
identity appends exactly one `ASCLModel.DatabaseTable` asset with a fresh
local id and registers the identity in the cache; any later call with the
cached identity appends no second table asset and reuses the cached local id
as the virtual column's parent. -/
theorem pivot_table_dedup_prototype (st : PassState) (n : String) (col ds : Asset)
    (colParentId tblParentId dsParentId : String) (eParent : Asset) (tblIdent : String)
    (h1 : getParentAssetId col = some colParentId)
    (h2 : getAssetById st.doc colParentId = some eParent)
    (h3 : getParentAssetId eParent = some tblParentId)
    (h4 : getTableIdentity st.doc (getPivotVirtualTableName (getAssetName eParent))
      tblParentId = some tblIdent)
    (h5 : getParentAssetId ds = some dsParentId)
    (hne : getColumnIdentityFromTableIdentity n tblIdent ≠ tblIdent) :
    (∃ rs, injectSnippetForPivotColumn st n col ds = some rs)
    ∧ (getIdForObjectIdentity st.cache tblIdent = none →
      ∀ r st2, injectSnippetForPivotColumn st n col ds = some (r, st2) →
        ∃ fld dsa,
          st2.doc.assets = st.doc.assets ++
            [pivotTableAsset (getPivotVirtualTableName (getAssetName eParent)) tblIdent
              ("xt" ++ toString (st.id_gen + 1)) tblParentId, fld, dsa] ∧
          fld.klass = "ASCLModel.DatabaseField" ∧ dsa.klass = "DataStageX.DSStageColumn" ∧
          fld.references = [⟨"of_DatabaseTableOrView", "xt" ++ toString (st.id_gen + 1)⟩] ∧
          getIdForObjectIdentity st2.cache tblIdent =
            some ("xt" ++ toString (st.id_gen + 1)))
    ∧ (∀ tid, getIdForObjectIdentity st.cache tblIdent = some tid →
      ∀ r st2, injectSnippetForPivotColumn st n col ds = some (r, st2) →
        ∃ fld dsa,
          st2.doc.assets = st.doc.assets ++ [fld, dsa] ∧
          fld.klass = "ASCLModel.DatabaseField" ∧ dsa.klass = "DataStageX.DSStageColumn" ∧
          fld.references = [⟨"of_DatabaseTableOrView", tid⟩] ∧
          getIdForObjectIdentity st2.cache tblIdent = some tid) := by
  refine ⟨?_, ?_, ?_⟩
  · cases hcache : getIdForObjectIdentity st.cache tblIdent with
    | none =>
      exact ⟨_, by simp only [injectSnippetForPivotColumn, h1, h2, h3, h4, h5, hcache,
        mapObjectToNextId, addAsset, hmPut, Option.bind_eq_bind, Option.some_bind,
        Option.pure_def]; rfl⟩
    | some tid =>
      exact ⟨_, by simp only [injectSnippetForPivotColumn, h1, h2, h3, h4, h5, hcache,
        mapObjectToNextId, addAsset, hmPut, Option.bind_eq_bind, Option.some_bind,
        Option.pure_def]; rfl⟩
  · intro hc r st2 hcall
    have hres : injectSnippetForPivotColumn st n col ds =
        some ("xt" ++ toString (st.id_gen + 1 + 1),
          { doc := { assets := st.doc.assets ++
                [pivotTableAsset (getPivotVirtualTableName (getAssetName eParent)) tblIdent
                  ("xt" ++ toString (st.id_gen + 1)) tblParentId] ++
                [pivotFieldAsset n (getColumnIdentityFromTableIdentity n tblIdent)
                  ("xt" ++ toString (st.id_gen + 1 + 1)) ("xt" ++ toString (st.id_gen + 1))] ++
                [pivotDSAsset n ("_ngo:" ++ jsAfterFirstDot (getAssetRID ds) ++ "." ++
                  toString st.ds_rid_gen)
                  ("ds" ++ ("xt" ++ toString (st.id_gen + 1 + 1))) dsParentId] },
            entryG := st.entryG, exitG := st.exitG, systemG := st.systemG,
            id_gen := st.id_gen + 1 + 1, ds_rid_gen := st.ds_rid_gen + 1,
            cache := (getColumnIdentityFromTableIdentity n tblIdent,
                "xt" ++ toString (st.id_gen + 1 + 1)) ::
              (tblIdent, "xt" ++ toString (st.id_gen + 1)) :: st.cache,
            customised := true, warnings := st.warnings }) := by
      simp only [injectSnippetForPivotColumn, h1, h2, h3, h4, h5, hc, mapObjectToNextId,
        addAsset, hmPut, Option.bind_eq_bind, Option.some_bind, Option.pure_def,
        pivotTableAsset, pivotFieldAsset, pivotDSAsset]
    rw [hres, Option.some.injEq, Prod.mk.injEq] at hcall
    obtain ⟨hr, hst⟩ := hcall
    subst hst
    refine ⟨pivotFieldAsset n (getColumnIdentityFromTableIdentity n tblIdent)
        ("xt" ++ toString (st.id_gen + 1 + 1)) ("xt" ++ toString (st.id_gen + 1)),
      pivotDSAsset n ("_ngo:" ++ jsAfterFirstDot (getAssetRID ds) ++ "." ++
        toString st.ds_rid_gen) ("ds" ++ ("xt" ++ toString (st.id_gen + 1 + 1))) dsParentId,
      ?_, rfl, rfl, rfl, ?_⟩
    · simp
    · simp [getIdForObjectIdentity, hne]
  · intro tid hc r st2 hcall
    have hres : injectSnippetForPivotColumn st n col ds =
        some ("xt" ++ toString (st.id_gen + 1),
          { doc := { assets := st.doc.assets ++
                [pivotFieldAsset n (getColumnIdentityFromTableIdentity n tblIdent)
                  ("xt" ++ toString (st.id_gen + 1)) tid] ++
                [pivotDSAsset n ("_ngo:" ++ jsAfterFirstDot (getAssetRID ds) ++ "." ++
                  toString st.ds_rid_gen)
                  ("ds" ++ ("xt" ++ toString (st.id_gen + 1))) dsParentId] },
            entryG := st.entryG, exitG := st.exitG, systemG := st.systemG,
            id_gen := st.id_gen + 1, ds_rid_gen := st.ds_rid_gen + 1,
            cache := (getColumnIdentityFromTableIdentity n tblIdent,
                "xt" ++ toString (st.id_gen + 1)) :: st.cache,
            customised := true, warnings := st.warnings }) := by
      simp only [injectSnippetForPivotColumn, h1, h2, h3, h4, h5, hc, mapObjectToNextId,
        addAsset, hmPut, Option.bind_eq_bind, Option.some_bind, Option.pure_def,
        pivotFieldAsset, pivotDSAsset]
    rw [hres, Option.some.injEq, Prod.mk.injEq] at hcall
    obtain ⟨hr, hst⟩ := hcall
    subst hst
    refine ⟨pivotFieldAsset n (getColumnIdentityFromTableIdentity n tblIdent)
        ("xt" ++ toString (st.id_gen + 1)) tid,
      pivotDSAsset n ("_ngo:" ++ jsAfterFirstDot (getAssetRID ds) ++ "." ++
        toString st.ds_rid_gen) ("ds" ++ ("xt" ++ toString (st.id_gen + 1))) dsParentId,
      ?_, rfl, rfl, rfl, ?_⟩
    · simp
    · show getIdForObjectIdentity ((getColumnIdentityFromTableIdentity n tblIdent,
        "xt" ++ toString (st.id_gen + 1)) :: st.cache) tblIdent = some tid
      rw [getIdForObjectIdentity_cons_ne st.cache _ _ _ hne]
      exact hc

/-! ## Concrete flow document for the pivot pass -/

/-- A concrete flow document with a full column hierarchy, two resolved
DataStage columns `dsA`/`dsB` and an unresolvable target id `dsC`. -/
def pivotsDoc : FlowDoc :=
  { assets :=
      [ { klass := "ASCLModel.HostSystem", repr := "HOST", externalID := "hr", ID := "h1",
          matchByName := "true", virtualOnly := "false", attributes := [⟨"name", "HOST"⟩],
          references := [] },
        { klass := "ASCLModel.Database", repr := "MYDB", externalID := "dr", ID := "d1",
          matchByName := "true", virtualOnly := "false",
          attributes := [⟨"name", "MYDB"⟩, ⟨"creationTool", "DB2"⟩],
          references := [⟨"of_HostSystem", "h1"⟩] },
        { klass := "ASCLModel.DataSchema", repr := "SCH", externalID := "sr", ID := "s1",
          matchByName := "true", virtualOnly := "false", attributes := [⟨"name", "SCH"⟩],
          references := [⟨"of_Database", "d1"⟩] },
        { klass := "ASCLModel.DatabaseTable", repr := "TBL", externalID := "tr", ID := "t1",
          matchByName := "true", virtualOnly := "false", attributes := [⟨"name", "TBL"⟩],
          references := [⟨"of_DataSchema", "s1"⟩] },
        { klass := "ASCLModel.DatabaseField", repr := "CX", externalID := "xr", ID := "dbX",
          matchByName := "true", virtualOnly := "false", attributes := [⟨"name", "CX"⟩],
          references := [⟨"of_DatabaseTableOrView", "t1"⟩] },
        { klass := "ASCLModel.DatabaseField", repr := "CY", externalID := "yr", ID := "dbY",
          matchByName := "true", virtualOnly := "false", attributes := [⟨"name", "CY"⟩],
          references := [⟨"of_DatabaseTableOrView", "t1"⟩] },
        { klass := "DataStageX.DSStageColumn", repr := "CA", externalID := "a1.b2",
          ID := "dsA", matchByName := "false", virtualOnly := "false",
          attributes := [⟨"name", "CA"⟩],
          references := [⟨"x_of_JobObject_DSLink", "lnk1"⟩] },
        { klass := "DataStageX.DSStageColumn", repr := "CB", externalID := "c3.d4",
          ID := "dsB", matchByName := "false", virtualOnly := "false",
          attributes := [⟨"name", "CB"⟩],
          references := [⟨"x_of_JobObject_DSLink", "lnk1"⟩] } ] }

/-- The database column `dbY` of `pivotsDoc`. -/
def dbYasset : Asset :=
  { klass := "ASCLModel.DatabaseField", repr := "CY", externalID := "yr", ID := "dbY",
    matchByName := "true", virtualOnly := "false", attributes := [⟨"name", "CY"⟩],
    references := [⟨"of_DatabaseTableOrView", "t1"⟩] }

/-- The DataStage column `dsB` of `pivotsDoc`. -/
def dsBasset : Asset :=
  { klass := "DataStageX.DSStageColumn", repr := "CB", externalID := "c3.d4", ID := "dsB",
    matchByName := "false", virtualOnly := "false", attributes := [⟨"name", "CB"⟩],
    references := [⟨"x_of_JobObject_DSLink", "lnk1"⟩] }

/-- Initial pass state over `pivotsDoc`: ENTRY maps `dbX → dsA`, EXIT maps
`dsB → dbY`, one SYSTEM edge `dsA → dsB dsC`, generators at zero, cache
empty. -/
def pivotsState : PassState :=
  { doc := pivotsDoc,
    entryG := [⟨"dbX", "dsA", "entry"⟩],
    exitG := [⟨"dsB", "dbY", "exit"⟩],
    systemG := [⟨"dsA", "dsB dsC", "sys"⟩],
    id_gen := 0, ds_rid_gen := 0, cache := [], customised := false, warnings := [] }

/-- The virtual pivot-table identity computed for `dbY`'s owning table in
`pivotsDoc`. -/
def pivotsTblIdent : String :=
  "_ngo:table:_ngo:db:host::mydb::db2::sch::(pivot) tbl"

/-- Witness for `pivot_table_dedup_prototype` at `pivotsState` (empty cache)
with pivot column `CY (for CX)` on `dbY`/`dsB`. -/
theorem pivot_table_dedup_prototype_witness :
    (∃ rs, injectSnippetForPivotColumn pivotsState "CY (for CX)" dbYasset dsBasset =
      some rs)
    ∧ (getIdForObjectIdentity pivotsState.cache pivotsTblIdent = none →
      ∀ r st2, injectSnippetForPivotColumn pivotsState "CY (for CX)" dbYasset dsBasset =
          some (r, st2) →
        ∃ fld dsa,
          st2.doc.assets = pivotsState.doc.assets ++
            [pivotTableAsset (getPivotVirtualTableName (getAssetName
              { klass := "ASCLModel.DatabaseTable", repr := "TBL", externalID := "tr",
                ID := "t1", matchByName := "true", virtualOnly := "false",
                attributes := [⟨"name", "TBL"⟩],
                references := [⟨"of_DataSchema", "s1"⟩] })) pivotsTblIdent
              ("xt" ++ toString (pivotsState.id_gen + 1)) "s1", fld, dsa] ∧
          fld.klass = "ASCLModel.DatabaseField" ∧ dsa.klass = "DataStageX.DSStageColumn" ∧
          fld.references = [⟨"of_DatabaseTableOrView",
            "xt" ++ toString (pivotsState.id_gen + 1)⟩] ∧
          getIdForObjectIdentity st2.cache pivotsTblIdent =
            some ("xt" ++ toString (pivotsState.id_gen + 1)))
    ∧ (∀ tid, getIdForObjectIdentity pivotsState.cache pivotsTblIdent = some tid →
      ∀ r st2, injectSnippetForPivotColumn pivotsState "CY (for CX)" dbYasset dsBasset =
          some (r, st2) →
        ∃ fld dsa,
          st2.doc.assets = pivotsState.doc.assets ++ [fld, dsa] ∧
          fld.klass = "ASCLModel.DatabaseField" ∧ dsa.klass = "DataStageX.DSStageColumn" ∧
          fld.references = [⟨"of_DatabaseTableOrView", tid⟩] ∧
          getIdForObjectIdentity st2.cache pivotsTblIdent = some tid) :=
  pivot_table_dedup_prototype pivotsState "CY (for CX)" dbYasset dsBasset "t1" "s1" "lnk1"
    { klass := "ASCLModel.DatabaseTable", repr := "TBL", externalID := "tr", ID := "t1",
      matchByName := "true", virtualOnly := "false", attributes := [⟨"name", "TBL"⟩],
      references := [⟨"of_DataSchema", "s1"⟩] }
    pivotsTblIdent
    (by decide) (by decide) (by decide) (by decide) (by decide) (by decide)

/-- A pass state with a pre-existing SYSTEM edge from the original job column
`dsA`, as it stands when the rewiring functions are called with the freshly
minted virtual column id `xt2`. -/
def rewireState : PassState :=
  { doc := { assets := [] },
    entryG := [⟨"dbX", "dsA", "entry"⟩],
    exitG := [⟨"dsB", "dbY", "exit"⟩],
    systemG := [⟨"dsA", "dsB", "original"⟩],
    id_gen := 2, ds_rid_gen := 1, cache := [], customised := true, warnings := [] }

/-- C3 counterexample: on the source side the SYSTEM lookup uses the freshly
minted virtual job-column id `dsxt2`, so the pre-existing SYSTEM edge of the
original job column `dsA` is left untouched and a separate new SYSTEM edge is
created — the claim's extension of the original edge does not happen. -/
theorem c3_source_side_counterexample :
    (injectSnippetForPivotFlowAsSource rewireState "xt2" "dsxt2" "dsxt2" "dsB"
        "[p]" "[q]").systemG =
      [⟨"dsA", "dsB", "original"⟩, ⟨"dsxt2", "dsB", "[q]"⟩] ∧
    (injectSnippetForPivotFlowAsSource rewireState "xt2" "dsxt2" "dsxt2" "dsB"
        "[p]" "[q]").systemG ≠
      [⟨"dsA", "dsB dsxt2", "original and [q]"⟩] := by
  constructor
  · decide
  · decide

/-- C3 (amended): the rewiring adds a brand-new ENTRY (source side) or EXIT
(target side) edge linking the new virtual database column and the new
virtual job column.  On the target side the SYSTEM lookup uses the original
job source-column id: an existing SYSTEM edge with exactly that `sourceIDs`
is extended — the new virtual job-column id space-appended to its
`targetIDs` and `" and "` plus the new comment appended to its comment — and
a new SYSTEM edge is created when none exists.  On the source side the
SYSTEM lookup instead uses the freshly minted virtual job-column id, so a
new SYSTEM edge from the virtual job column to the original target job
column is always created and the pre-existing SYSTEM edge is not modified. -/
theorem c3_rewire_amended (st : PassState) (newColId sTargetId sSourceId ce cs : String) :
    (getSubflowBySourceId st.entryG newColId = none →
     getSubflowBySourceId st.systemG ("ds" ++ newColId) = none →
      (injectSnippetForPivotFlowAsSource st newColId ("ds" ++ newColId) ("ds" ++ newColId)
          sTargetId ce cs).entryG =
        st.entryG ++ [⟨newColId, "ds" ++ newColId, ce⟩] ∧
      (injectSnippetForPivotFlowAsSource st newColId ("ds" ++ newColId) ("ds" ++ newColId)
          sTargetId ce cs).systemG =
        st.systemG ++ [⟨"ds" ++ newColId, sTargetId, cs⟩])
    ∧ (getSubflowBySourceId st.exitG ("ds" ++ newColId) = none →
      (injectSnippetForPivotFlowAsTarget st ("ds" ++ newColId) newColId sSourceId
          ("ds" ++ newColId) ce cs).exitG =
        st.exitG ++ [⟨"ds" ++ newColId, newColId, ce⟩])
    ∧ (∀ f, getSubflowBySourceId st.systemG sSourceId = some f →
      (injectSnippetForPivotFlowAsTarget st ("ds" ++ newColId) newColId sSourceId
          ("ds" ++ newColId) ce cs).systemG =
        replaceFirstFlow st.systemG f
          { f with targetIDs := f.targetIDs ++ " " ++ ("ds" ++ newColId),
                   comment := f.comment ++ " and " ++ cs })
    ∧ (getSubflowBySourceId st.systemG sSourceId = none →
      (injectSnippetForPivotFlowAsTarget st ("ds" ++ newColId) newColId sSourceId
          ("ds" ++ newColId) ce cs).systemG =
        st.systemG ++ [⟨sSourceId, "ds" ++ newColId, cs⟩]) := by
  refine ⟨?_, ?_, ?_, ?_⟩
  · intro he hs
    constructor
    · simp [injectSnippetForPivotFlowAsSource, addFlow, he]
    · simp [injectSnippetForPivotFlowAsSource, addFlow, hs]
  · intro he
    simp [injectSnippetForPivotFlowAsTarget, addFlow, he]
  · intro f hf
    simp [injectSnippetForPivotFlowAsTarget, addFlow, hf]
  · intro hs
    simp [injectSnippetForPivotFlowAsTarget, addFlow, hs]

/-- Witness for the amended C3 at `rewireState`. -/
theorem c3_rewire_amended_witness :
    (injectSnippetForPivotFlowAsSource rewireState "xt2" "dsxt2" "dsxt2" "dsB"
        "[p]" "[q]").entryG = rewireState.entryG ++ [⟨"xt2", "dsxt2", "[p]"⟩] ∧
    (injectSnippetForPivotFlowAsSource rewireState "xt2" "dsxt2" "dsxt2" "dsB"
        "[p]" "[q]").systemG = rewireState.systemG ++ [⟨"dsxt2", "dsB", "[q]"⟩] ∧
    (injectSnippetForPivotFlowAsTarget rewireState "dsxt2" "xt2" "dsA" "dsxt2"
        "[p]" "[q]").exitG = rewireState.exitG ++ [⟨"dsxt2", "xt2", "[p]"⟩] ∧
    (injectSnippetForPivotFlowAsTarget rewireState "dsxt2" "xt2" "dsA" "dsxt2"
        "[p]" "[q]").systemG =
      replaceFirstFlow rewireState.systemG ⟨"dsA", "dsB", "original"⟩
        { sourceIDs := "dsA", targetIDs := "dsB" ++ " " ++ "dsxt2",
          comment := "original" ++ " and " ++ "[q]" } := by
  obtain ⟨hsrc, hexit, hsys, _⟩ := c3_rewire_amended rewireState "xt2" "dsB" "dsA" "[p]" "[q]"
  obtain ⟨hentry, hsystem⟩ := hsrc (by decide) (by decide)
  exact ⟨hentry, hsystem, hexit (by decide),
    hsys ⟨"dsA", "dsB", "original"⟩ (by decide)⟩

/-- C4 (code bug): on `pivotsState` with `dsB` marked as a pivot column, the
missed EXIT lookup for `dsC` logs the warning but the function-scoped
`bTargetIsPivot` is still `true` from the `dsB` iteration, so the code calls
`injectSnippetForPivotColumn` with the null `eTarget` and the whole pass
crashes (`none`).  With no pivot match the same miss is warned and skipped
and the pass completes unchanged; a missed ENTRY lookup is likewise warned
and skipped even with a pivot set present. -/
theorem c4_resolution_miss_stale_flag :
    resolveSourceToTargetMappings ["c3.d4"] pivotsState "dsA" "dsB dsC" = none ∧
    resolveSourceToTargetMappings [] pivotsState "dsA" "dsB dsC" =
      some { pivotsState with
        warnings := ["WARN: column for target not found!  (XML id: dsC)"] } ∧
    resolveSourceToTargetMappings ["c3.d4"] pivotsState "dsZ" "dsB dsC" =
      some { pivotsState with
        warnings := ["WARN: column for source not found!  (XML id: dsZ)"] } := by
  refine ⟨?_, ?_, ?_⟩
  · decide
  · decide
  · decide

/-- The class-based `addAsset` of `classes/flow-handler.js` as written,
including its `additionalAttrs` guard: the guard `additionalAttrs !== null`
also admits `undefined` (an omitted ninth argument, as in every call of
`createColumnLevelPivots.js`), so the loop header reads `undefined.length`
and throws a TypeError before `appendChild` runs — the asset element is
never added; `none` models the throw.  With an actual array the function
appends the asset exactly as `addAsset` with `some`. -/
def addAssetClass (doc : FlowDoc)
    (className name rid xmlId matchByName virtualOnly : String)
    (parentType parentId : Option String) (additionalAttrs : Option (List FlowAttr)) :
    Option FlowDoc :=
  match additionalAttrs with
  | some l => some (addAsset doc className name rid xmlId matchByName virtualOnly
      parentType parentId (some l))
  | none => none

/-- `injectSnippetForPivotColumn` paired with the class-based `FlowHandler`
that `index.js` exports: identical to `injectSnippetForPivotColumn` except
that each eight-argument `fh.addAsset` call goes through `addAssetClass`
with the `additionalAttrs` argument omitted. -/
def injectSnippetForPivotColumnClass (st : PassState) (pivotColName : String)
    (ePivotCol ePivotDS : Asset) : Option (String × PassState) := do
  let colParentId ← getParentAssetId ePivotCol
  let eParent ← getAssetById st.doc colParentId
  let pivotTblName := getPivotVirtualTableName (getAssetName eParent)
  let tblParentId ← getParentAssetId eParent
  let virtTblId ← getTableIdentity st.doc pivotTblName tblParentId
  let (internalTblId, st1) ←
    match getIdForObjectIdentity st.cache virtTblId with
    | some tid => some (tid, st)
    | none =>
      let (tid, stNew) := mapObjectToNextId st virtTblId
      (addAssetClass stNew.doc "ASCLModel.DatabaseTable" pivotTblName virtTblId tid
        "true" "true" (some "of_DataSchema") (some tblParentId) none).map
        (fun docNew => (tid, { stNew with doc := docNew, customised := true }))
  let dsParentId ← getParentAssetId ePivotDS
  let dsBaseRID := getAssetRID ePivotDS
  let dsColId := "_ngo:" ++ jsAfterFirstDot dsBaseRID ++ "." ++ toString st1.ds_rid_gen
  let st2 := { st1 with ds_rid_gen := st1.ds_rid_gen + 1 }
  let virtColId := getColumnIdentityFromTableIdentity pivotColName virtTblId
  let (internalId, st3) := mapObjectToNextId st2 virtColId
  let internalIdDS := "ds" ++ internalId
  let doc2 ← addAssetClass st3.doc "ASCLModel.DatabaseField" pivotColName virtColId
    internalId "true" "true" (some "of_DatabaseTableOrView") (some internalTblId) none
  let doc3 ← addAssetClass doc2 "DataStageX.DSStageColumn" pivotColName dsColId
    internalIdDS "false" "true" (some "x_of_JobObject_DSLink") (some dsParentId) none
  return (internalId, { st3 with doc := doc3, customised := true })

/-- C1 (code bug): under the class-based `FlowHandler` that `index.js`
exports, every eight-argument `addAsset` call of the sample throws a
TypeError — the `additionalAttrs !== null` guard admits `undefined`, whose
`.length` read throws before `appendChild` — although the class `addAsset`'s
own documentation marks the parameter optional.  The first pivot-column
injection therefore aborts, with an empty cache just as with the pivot-table
identity already cached, so the claimed create-once/reuse-later behaviour
never takes place under this pairing.  The claimed behaviour is the
documented intent and holds under the historical prototype `addAsset`, whose
signature the sample's calls match: `pivot_table_dedup_prototype`. -/
theorem c1_class_addasset_throws :
    injectSnippetForPivotColumnClass pivotsState "CY (for CX)" dbYasset dsBasset =
      none ∧
    injectSnippetForPivotColumnClass
      { pivotsState with id_gen := 1, cache := [(pivotsTblIdent, "xt1")] }
      "CY (for CX)" dbYasset dsBasset = none := by
  constructor
  · decide
  · decide
